import Mathlib

/-!
Shallow embedding of the adk-kubernetes OAuth/agent-streaming core.

Python machine-level conventions used throughout:
* `Option String` models `str | None`; Python truthiness of such a value
  (`if x:`) is `pyTruthy` (false for `None` and for `""`).
* Python `dict[str, α]` is modelled as an association list with unique keys;
  `dict_get`, `dict_set`, `dict_pop` mirror `d.get`, `d[k] = v`, `d.pop(k, None)`.
* A Python function that can raise returns `Except PyError` (or pairs its
  yields with an `Option PyError` when it is a generator that can raise after
  yielding).
-/

/-- Errors raised by the embedded Python code. `timeoutError` carries the
OAuth state that the `TimeoutError` message names. -/
inductive PyError where
  | valueError (msg : String)
  | typeError
  | attributeError
  | timeoutError (state : String)
  deriving Repr, DecidableEq

/-- Truthiness of a `str | None` value: `None` and `""` are falsy. -/
def pyTruthy : Option String → Bool
  | none => false
  | some s => !(s == "")

/-- Python `d.get(k)` on a string-keyed dict. -/
def dict_get {α : Type} (d : List (String × α)) (k : String) : Option α :=
  (d.find? (fun kv => kv.1 == k)).map (·.2)

/-- Python `d[k] = v`: overwrite in place if present, else append. -/
def dict_set {α : Type} (d : List (String × α)) (k : String) (v : α) :
    List (String × α) :=
  if (d.find? (fun kv => kv.1 == k)).isSome then
    d.map (fun kv => if kv.1 == k then (k, v) else kv)
  else
    d ++ [(k, v)]

/-- Python `d.pop(k, None)`: the looked-up value and the dict with `k` removed. -/
def dict_pop {α : Type} (d : List (String × α)) (k : String) :
    Option α × List (String × α) :=
  (dict_get d k, d.filter (fun kv => kv.1 != k))

/-- Python `s.split(sep)` for a one-character separator, on the character
list: always returns a non-empty list of fragments. -/
def pySplitCh (sep : Char) : List Char → List (List Char)
  | [] => [[]]
  | c :: cs =>
    let r := pySplitCh sep cs
    if c = sep then [] :: r
    else
      match r with
      | h :: t => (c :: h) :: t
      | [] => [[c]]

/-- Python `s.split(sep)` for a one-character separator string. -/
def pySplit (sep : Char) (s : String) : List String :=
  (pySplitCh sep s.toList).map (fun l => ⟨l⟩)

/-! ## Credential key codec (`gmail_agent/callbacks.py`, `BaseGmailCallback`)

Python `hash` on `str` yields a value in the 64-bit `Py_hash_t` range; it is
modelled as an arbitrary function `String → Fin (2 ^ 64)`, quantified in the
theorems. Scheme/credential objects are modelled by the content the code
reads (`type_.name` / `auth_type.value` and `model_dump_json()`), plus an
`addr` field standing for CPython object identity, which no key derivation
reads. -/

/-- Model of an `AuthScheme` object as consumed by the key codec. -/
structure AuthSchemeObj where
  type_name : String
  dump_json : String
  addr : Nat
  deriving Repr, DecidableEq

/-- Model of an `AuthCredential` object as consumed by the key codec. -/
structure AuthCredentialObj where
  auth_type_value : String
  dump_json : String
  addr : Nat
  deriving Repr, DecidableEq

/-- `BaseGmailCallback.get_credential_key_from_auth_scheme_and_credential`. -/
def get_credential_key_from_auth_scheme_and_credential
    (pyHash : String → Fin (2 ^ 64))
    (auth_scheme : AuthSchemeObj) (auth_credential : AuthCredentialObj) :
    String :=
  let scheme_name := auth_scheme.type_name ++ "_" ++
    toString (pyHash auth_scheme.dump_json).val
  let credential_name := auth_credential.auth_type_value ++ "_" ++
    toString (pyHash auth_credential.dump_json).val
  scheme_name ++ "_" ++ credential_name ++ "_existing_exchanged_credential"

/-- `BaseGmailCallback.get_temporary_credential_key`. -/
def get_temporary_credential_key
    (pyHash : String → Fin (2 ^ 64))
    (auth_scheme : AuthSchemeObj) (auth_credential : AuthCredentialObj) :
    String :=
  let scheme_name := auth_scheme.type_name ++ "_" ++
    toString (pyHash auth_scheme.dump_json).val
  let credential_name := auth_credential.auth_type_value ++ "_" ++
    toString (pyHash auth_credential.dump_json).val
  "temp:adk_" ++ scheme_name ++ "_" ++ credential_name

/-- `BaseGmailCallback.get_persistent_credential_key`: the code concatenates
`session_id : session_user_id : gmail_user_id` (separator `self._session_user_separator`)
and never uses the `credential_key` argument. -/
def get_persistent_credential_key
    (credential_key session_id session_user_id gmail_user_id : String) :
    String :=
  let _ := credential_key
  session_id ++ ":" ++ session_user_id ++ ":" ++ gmail_user_id

/-- `BaseGmailCallback.get_session_user_from_persistent_credential_key`:
splits on `self._uuid_separator` (`"-"`), keeps the last fragment, splits it
on `":"` and unpacks into exactly two variables. A fragment count other than
two raises `ValueError` (modelled as `none`). -/
def get_session_user_from_persistent_credential_key
    (credential_key_redis : String) : Option (String × String) :=
  match (pySplit '-' credential_key_redis).getLast? with
  | none => none
  | some uuid =>
    match pySplit ':' uuid with
    | [session_id, user_id] => some (session_id, user_id)
    | _ => none

/-! ## OAuth callback store (`oauth_callback_handler.py`)

The in-memory variant keeps `auth_codes : dict[str, str]`; the Redis variant
keeps `state → code` entries in Redis (values are bytes; an entry's payload
is modelled as the decoded string). Both are modelled as association lists
threaded through each operation. -/

/-- Outcome of `handle_callback` (the HTML page returned to the browser). -/
inductive CallbackResponse where
  | authFailed
  | invalidRequest
  | success
  deriving Repr, DecidableEq

/-- `InMemoryOAuthCallbackHandler.handle_callback`: query params `code`,
`state`, `error` are read with `query_params.get` (absent → `None`). The
branches test Python truthiness (`if error:`, `if not code or not state:`). -/
def handle_callback (auth_codes : List (String × String))
    (code state error : Option String) :
    CallbackResponse × List (String × String) :=
  if pyTruthy error then
    (CallbackResponse.authFailed, auth_codes)
  else if !pyTruthy code || !pyTruthy state then
    (CallbackResponse.invalidRequest, auth_codes)
  else
    (CallbackResponse.success, dict_set auth_codes (state.getD "") (code.getD ""))

/-- `InMemoryOAuthCallbackHandler.get_code`: `self.auth_codes.get(state)`. -/
def get_code (auth_codes : List (String × String)) (state : String) :
    Option String :=
  dict_get auth_codes state

/-- `InMemoryOAuthCallbackHandler.consume_code`:
`self.auth_codes.pop(state, None)`. Returns the code (if any) and the
updated store. -/
def consume_code (auth_codes : List (String × String)) (state : String) :
    Option String × List (String × String) :=
  dict_pop auth_codes state

/-- `RedisOAuthCallbackHandler.consume_code`: `get`, then if the value is
truthy (non-empty bytes), `delete` and return it; otherwise return `None`
without deleting. -/
def consume_code_redis (store : List (String × String)) (state : String) :
    Option String × List (String × String) :=
  match dict_get store state with
  | some code =>
    if code == "" then (none, store)
    else (some code, (dict_pop store state).2)
  | none => (none, store)

/-! ## Event and negotiation model (`google_agent_caller.py`)

Events are google-genai `Event`/`Content`/`Part` objects; the model carries
exactly the fields the code under verification reads. The `AuthConfig`
("negotiation") is modelled through the access path the code uses:
`exchanged_auth_credential.oauth2.{auth_uri, state, auth_response_uri,
redirect_uri}`. Accessing an attribute of `None` raises `AttributeError`. -/

/-- OAuth2 sub-object of the exchanged credential. -/
structure OAuth2Auth where
  auth_uri : Option String := none
  state : Option String := none
  auth_response_uri : Option String := none
  redirect_uri : Option String := none
  deriving Repr, DecidableEq

/-- Exchanged credential carried by the negotiation. -/
structure ExchangedAuthCredential where
  oauth2 : Option OAuth2Auth := none
  deriving Repr, DecidableEq

/-- The negotiation object (`google.adk.auth.AuthConfig`). -/
structure AuthConfig where
  exchanged_auth_credential : Option ExchangedAuthCredential := none
  deriving Repr, DecidableEq

/-- Value found under a key of a function call's `args` dict: either a dict
that validates as an `AuthConfig` (`model_validate` is the identity on it),
or some other truthy non-dict value. -/
inductive ArgVal where
  | configDict (cfg : AuthConfig)
  | nonDict
  deriving Repr, DecidableEq

/-- google-genai `FunctionCall`. -/
structure FunctionCall where
  id : Option String := none
  name : Option String := none
  args : Option (List (String × ArgVal)) := none
  deriving Repr, DecidableEq

/-- google-genai `FunctionResponse`; `response` is the `model_dump()` of an
`AuthConfig` in the code under verification. -/
structure FunctionResponse where
  id : Option String := none
  name : Option String := none
  response : Option AuthConfig := none
  deriving Repr, DecidableEq

/-- google-genai `Part` (named `ContentPart` here because `Part` is taken
in Lean). -/
structure ContentPart where
  text : Option String := none
  function_call : Option FunctionCall := none
  function_response : Option FunctionResponse := none
  deriving Repr, DecidableEq

/-- google-genai `Content`; `parts` is `Optional[list[Part]]`. -/
structure Content where
  role : Option String := none
  parts : Option (List ContentPart) := none
  deriving Repr, DecidableEq

/-- google-adk `Event`: the fields read by the code under verification.
`long_running_tool_ids` is `Optional[set[str]]`, modelled as a list. -/
structure Event where
  author : Option String := none
  content : Option Content := none
  long_running_tool_ids : Option (List String) := none
  deriving Repr, DecidableEq

/-- `default_event_parser` (named `default_event_parse` here): joins the non-`None` part texts with single
spaces. A genai `Content` always has a `parts` attribute, so the
`elif hasattr(event.content, "text")` branch is unreachable; when `content`
is falsy (`None`) the code returns `str(event)`, modelled by the abstract
`strEvent` parameter. Iterating `parts` when it is `None` raises
`TypeError`. -/
def default_event_parse (strEvent : Event → String) (event : Event) :
    Except PyError String :=
  match event.content with
  | some c =>
    match c.parts with
    | some ps => Except.ok (String.intercalate " " (ps.filterMap (·.text)))
    | none => Except.error PyError.typeError
  | none => Except.ok (strEvent event)

/-- `default_event_filter`: `True` (suppress) unless some part has
non-`None` text. Iterating `parts` when it is `None` raises `TypeError`. -/
def default_event_filter (event : Event) : Except PyError Bool :=
  match event.content with
  | some c =>
    match c.parts with
    | some ps => Except.ok (ps.all (fun p => p.text.isNone))
    | none => Except.error PyError.typeError
  | none => Except.ok true

/-! ## Auth Config Handler (`AuthConfigHandler`)

`wait_for_user_authentication` polls `oauth_handler.consume_code(state)`
once per poll interval: iteration `k` runs with `elapsed = k * poll_interval`
while `elapsed < timeout`. The store's successive answers are abstracted as
`poll : ℕ → Option String` (the result of the `k`-th `consume_code` call);
time arithmetic is modelled over `ℚ`. The loop requires a positive poll
interval (the Python loop never terminates otherwise). -/

/-- Handler state (its dataclass fields, minus the injected store). -/
structure AuthConfigHandler where
  auth_config : AuthConfig
  redirect_uri : String := "http://localhost:8001/callback"
  poll_interval : ℚ := 2
  deriving Repr, DecidableEq

/-- `AuthConfigHandler.set_auth_config`: `AuthConfig.model_validate` on an
already well-shaped dict is the identity. -/
def set_auth_config (h : AuthConfigHandler) (auth_config : AuthConfig) :
    AuthConfigHandler :=
  { h with auth_config := auth_config }

/-- Python truthiness test `if code:` applied to a poll answer: keeps only a
non-empty code. -/
def truthyCode : Option String → Option String
  | some c => if c == "" then none else some c
  | none => none

/-- Number of iterations of `while elapsed < timeout` when `elapsed` starts
at `0` and grows by `poll_interval` each round: iteration `k` runs iff
`k * poll_interval < timeout`. -/
def num_polls (poll_interval timeout : ℚ) : ℕ :=
  ⌈timeout / poll_interval⌉₊

/-- The polling loop body: starting at call index `k` with `fuel` iterations
allowed, the first truthy code returned by `consume_code`, if any. -/
def wait_loop (poll : ℕ → Option String) : ℕ → ℕ → Option String
  | _, 0 => none
  | k, fuel + 1 =>
    match truthyCode (poll k) with
    | some code => some code
    | none => wait_loop poll (k + 1) fuel

/-- `AuthConfigHandler.wait_for_user_authentication`: reads
`auth_config.exchanged_auth_credential.oauth2.state` (attribute access on
`None` raises `AttributeError`), raises `ValueError` on a falsy state, polls
`consume_code` while `elapsed < timeout`, and on the first truthy code sets
`auth_response_uri` to `redirect_uri?code=<code>&state=<state>` and
`redirect_uri` on the exchanged credential, returning the updated config;
otherwise raises a `TimeoutError` naming the state. -/
def wait_for_user_authentication (h : AuthConfigHandler)
    (poll : ℕ → Option String) (timeout : ℚ) : Except PyError AuthConfig :=
  match h.auth_config.exchanged_auth_credential with
  | none => Except.error PyError.attributeError
  | some ec =>
    match ec.oauth2 with
    | none => Except.error PyError.attributeError
    | some o =>
      match o.state with
      | none => Except.error (PyError.valueError "State not found in auth_config")
      | some st =>
        if st == "" then
          Except.error (PyError.valueError "State not found in auth_config")
        else
          match wait_loop poll 0 (num_polls h.poll_interval timeout) with
          | some code =>
            Except.ok
              { exchanged_auth_credential := some
                  { oauth2 := some
                      { o with
                        auth_response_uri := some
                          (h.redirect_uri ++ "?code=" ++ code ++ "&state=" ++ st),
                        redirect_uri := some h.redirect_uri } } }
          | none => Except.error (PyError.timeoutError st)

/-! ## Auth Interceptor (`AuthInterceptor`) -/

/-- Interceptor state: the handler it drives plus the agent name stamped on
produced events. -/
structure AuthInterceptor where
  auth_config_handler : AuthConfigHandler
  agent_name : Option String := none
  deriving Repr, DecidableEq

/-- The condition on one part in
`AuthInterceptor.get_auth_request_function_call`: a function call named
`adk_request_credential` whose id is a member of the event's truthy
`long_running_tool_ids` set (`None in set` is false, an absent or empty set
is falsy). -/
def auth_call_matches (event : Event) (fc : FunctionCall) : Bool :=
  fc.name == some "adk_request_credential" &&
    (match event.long_running_tool_ids, fc.id with
     | some ids, some i => ids.contains i
     | _, _ => false)

/-- `AuthInterceptor.get_auth_request_function_call`: `None` when the event
has falsy content or falsy (absent or empty) parts, else the first part
whose function call satisfies `auth_call_matches`. -/
def get_auth_request_function_call (event : Event) : Option FunctionCall :=
  match event.content with
  | none => none
  | some c =>
    match c.parts with
    | none => none
    | some ps =>
      if ps.isEmpty then none
      else
        ps.findSome? (fun p =>
          match p.function_call with
          | some fc => if auth_call_matches event fc then some fc else none
          | none => none)

/-- `AuthInterceptor.is_auth_event`. -/
def is_auth_event (event : Event) : Bool :=
  (get_auth_request_function_call event).isSome

/-- `AuthInterceptor.ask_user_for_authentication`: builds the user-facing
event whose single text part is
`AUTH_REQUIRED: <auth_uri>&redirect_uri=<redirect_uri>`; raises `ValueError`
when `auth_uri` or `state` is falsy on the handler's negotiation. -/
def ask_user_for_authentication (h : AuthConfigHandler)
    (agent_name : Option String) : Except PyError Event :=
  match h.auth_config.exchanged_auth_credential with
  | none => Except.error PyError.attributeError
  | some ec =>
    match ec.oauth2 with
    | none => Except.error PyError.attributeError
    | some o =>
      if !pyTruthy o.auth_uri then
        Except.error (PyError.valueError "Auth URI not found in auth_config")
      else if !pyTruthy o.state then
        Except.error (PyError.valueError "State not found in auth_config")
      else
        Except.ok
          { author := agent_name,
            content := some
              { role := some "model",
                parts := some
                  [{ text := some ("AUTH_REQUIRED: " ++ o.auth_uri.getD "" ++
                       "&redirect_uri=" ++ h.redirect_uri) }] } }

/-- `AuthInterceptor.create_event_with_code_credentials`: the resumption
event carrying a function response with the original call id, the reserved
name, and the updated negotiation as payload. -/
def create_event_with_code_credentials (agent_name : Option String)
    (auth_request_function_call_id : String) (auth_config : AuthConfig) :
    Event :=
  { author := agent_name,
    content := some
      { role := some "user",
        parts := some
          [{ function_response := some
               { id := some auth_request_function_call_id,
                 name := some "adk_request_credential",
                 response := some auth_config } }] } }

/-- `AuthInterceptor.intercept_auth_event`, an async generator: the list of
events it yields, the error it raises afterwards (if any), and the
interceptor state after the call (its handler is mutated by
`set_auth_config` and by the wait). A falsy function-call id, falsy `args`,
falsy `args.get("authConfig")`, or a non-dict `authConfig` raise
`ValueError` before the first yield. -/
def intercept_auth_event (itc : AuthInterceptor) (poll : ℕ → Option String)
    (event : Event) : (List Event × Option PyError) × AuthInterceptor :=
  match get_auth_request_function_call event with
  | none => (([], some (PyError.valueError "Event does not contain an auth request")), itc)
  | some fc =>
    match fc.id with
    | none => (([], some (PyError.valueError "Cannot get function call id")), itc)
    | some fcid =>
      if fcid == "" then
        (([], some (PyError.valueError "Cannot get function call id")), itc)
      else
        match fc.args with
        | none => (([], some (PyError.valueError "Cannot get auth config")), itc)
        | some args =>
          if args.isEmpty then
            (([], some (PyError.valueError "Cannot get auth config")), itc)
          else
            match dict_get args "authConfig" with
            | none => (([], some (PyError.valueError "Cannot get auth config")), itc)
            | some ArgVal.nonDict =>
              (([], some (PyError.valueError "authConfig is not a dict")), itc)
            | some (ArgVal.configDict cfg) =>
              let h := set_auth_config itc.auth_config_handler cfg
              match ask_user_for_authentication h itc.agent_name with
              | Except.error e => (([], some e), { itc with auth_config_handler := h })
              | Except.ok askEvent =>
                match wait_for_user_authentication h poll 300 with
                | Except.error e =>
                  (([askEvent], some e), { itc with auth_config_handler := h })
                | Except.ok updated =>
                  (([askEvent,
                     create_event_with_code_credentials itc.agent_name fcid updated],
                    none),
                   { itc with auth_config_handler := { h with auth_config := updated } })

/-! ## Agent Caller (`AgentCallerGoogle`)

`call_agent_async` is an async generator; its behaviour is modelled as the
list of yielded strings plus an optional terminal error. The engine
(`Runner.run_async`) is abstracted as `runner : ℕ → Option Content → List Event`,
giving the event stream of the `n`-th run for a given `new_message`. The
outer `while` loop is bounded by an explicit `fuel` (the source loop may
diverge if every run keeps producing auth events). -/

/-- A registered session (`domain.entities.session.Session`). -/
structure SessionRec where
  id : String
  app_name : String
  user_id : String
  deriving Repr, DecidableEq

/-- `session_service.get_session(app_name=…, session_id=…, user_id=…)`. -/
def get_session (store : List SessionRec) (app_name session_id user_id : String) :
    Option SessionRec :=
  store.find? (fun s =>
    s.app_name == app_name && s.id == session_id && s.user_id == user_id)

/-- `AgentCallerGoogle.check_session_exists` (a raised `ValueError` in the
backing service also yields `False`; the model's lookup is total). -/
def check_session_exists (store : List SessionRec)
    (app_name session_id user_id : String) : Bool :=
  (get_session store app_name session_id user_id).isSome

/-- `AgentCallerGoogle._is_event_auth_response`. -/
def is_event_auth_response (event : Event) : Bool :=
  match event.content with
  | none => false
  | some c =>
    match c.parts with
    | none => false
    | some ps =>
      ps.any (fun p =>
        match p.function_response with
        | some fr => fr.name == some "adk_request_credential"
        | none => false)

/-- Terminal errors of `call_agent_async`. `outOfFuel` is a modelling
artifact marking that the outer `while` loop exceeded the fuel bound. -/
inductive CallerErr where
  | sessionNotFound (session_id : String)
  | py (e : PyError)
  | outOfFuel
  deriving Repr, DecidableEq

/-- Outcome of processing one engine run's events. -/
inductive RunStep where
  | done
  | restart (msg : Option Content) (itc : AuthInterceptor)
  | failed (e : PyError)
  deriving Repr, DecidableEq

/-- The inner `async for auth_event in intercept_auth_event(…)` loop body:
an auth-response event replaces the next message (and is not yielded); any
other event is yielded when it passes the filter. Returns the yielded texts,
the (possibly replaced) next message and the first error raised. -/
def process_auth_events (filt : Event → Except PyError Bool)
    (pars : Event → Except PyError String) :
    List Event → Option Content → List String × Option Content × Option PyError
  | [], msg => ([], msg, none)
  | ev :: rest, msg =>
    if is_event_auth_response ev then
      process_auth_events filt pars rest ev.content
    else
      match filt ev with
      | Except.error e => ([], msg, some e)
      | Except.ok true => process_auth_events filt pars rest msg
      | Except.ok false =>
        match pars ev with
        | Except.error e => ([], msg, some e)
        | Except.ok s =>
          let r := process_auth_events filt pars rest msg
          (s :: r.1, r.2.1, r.2.2)

/-- The `async for event in runner.run_async(…)` loop body: on an auth event,
drive `intercept_auth_event`, consume its yields, then `break` and restart
with the replacement message; otherwise yield filtered/parsed text. -/
def process_events (itc : AuthInterceptor) (poll : ℕ → Option String)
    (filt : Event → Except PyError Bool)
    (pars : Event → Except PyError String) :
    List Event → Option Content → List String × RunStep
  | [], _ => ([], RunStep.done)
  | ev :: rest, msg =>
    if is_auth_event ev then
      let r := intercept_auth_event itc poll ev
      let pa := process_auth_events filt pars r.1.1 msg
      match pa.2.2 with
      | some e => (pa.1, RunStep.failed e)
      | none =>
        match r.1.2 with
        | some e => (pa.1, RunStep.failed e)
        | none => (pa.1, RunStep.restart pa.2.1 r.2)
    else
      match filt ev with
      | Except.error e => ([], RunStep.failed e)
      | Except.ok true => process_events itc poll filt pars rest msg
      | Except.ok false =>
        match pars ev with
        | Except.error e => ([], RunStep.failed e)
        | Except.ok s =>
          let r := process_events itc poll filt pars rest msg
          (s :: r.1, r.2)

/-- The outer `while credentials_needed or first_call` loop, bounded by
`fuel` iterations; `runIdx` numbers the engine runs. -/
def caller_loop (runner : ℕ → Option Content → List Event)
    (poll : ℕ → Option String) (filt : Event → Except PyError Bool)
    (pars : Event → Except PyError String) :
    ℕ → ℕ → AuthInterceptor → Option Content → List String × Option CallerErr
  | 0, _, _, _ => ([], some CallerErr.outOfFuel)
  | fuel + 1, runIdx, itc, msg =>
    let r := process_events itc poll filt pars (runner runIdx msg) msg
    match r.2 with
    | RunStep.done => (r.1, none)
    | RunStep.failed e => (r.1, some (CallerErr.py e))
    | RunStep.restart msg' itc' =>
      let rec' := caller_loop runner poll filt pars fuel (runIdx + 1) itc' msg'
      (r.1 ++ rec'.1, rec'.2)

/-- `AgentCallerGoogle.call_agent_async`: wraps the message as
`types.Content(parts=[types.Part(text=message)])`, raises
`SessionNotFoundError(session_id)` when no session exists for
`(session_id, user_id)` under the caller's app name, and otherwise runs the
engine loop. -/
def call_agent_async (session_store : List SessionRec) (app_name : String)
    (runner : ℕ → Option Content → List Event) (poll : ℕ → Option String)
    (filt : Event → Except PyError Bool)
    (pars : Event → Except PyError String) (itc : AuthInterceptor)
    (message session_id user_id : String) (fuel : ℕ) :
    List String × Option CallerErr :=
  let new_message : Option Content :=
    some { role := none, parts := some [{ text := some message }] }
  if check_session_exists session_store app_name session_id user_id then
    caller_loop runner poll filt pars fuel 0 itc new_message
  else
    ([], some (CallerErr.sessionNotFound session_id))

/-! ## SSE stream generator (`run_agent_sse_api.py`)

`SSEStreamGenerator.generate_stream` consumes the use case's string stream,
modelled as the yielded responses plus an optional terminal exception. Its
`except` block starts with `raise e`, so the error-frame emission that
follows it is unreachable; the `finally` block still yields the completion
frame while the exception propagates, after which the exception reaches the
consumer. Frames are modelled structurally (the wire shape is
`data: <json>\n\n`). -/

/-- One SSE frame, by its `type` tag and payload. -/
inductive SSEFrame where
  | agentResponse (content session_id user_id : String)
  | completion (session_id user_id : String)
  | errorFrame (msg session_id user_id : String)
  deriving Repr, DecidableEq

/-- `AgentResponseMapper.map_response_to_sse`. -/
def map_response_to_sse (response session_id user_id : String) : SSEFrame :=
  SSEFrame.agentResponse response session_id user_id

/-- `SSEStreamGenerator.generate_stream` over an underlying stream that
yields `responses` and then raises `exn` (if some): the emitted frames and
the exception that propagates to the consumer. -/
def generate_stream (responses : List String) (exn : Option String)
    (session_id user_id : String) : List SSEFrame × Option String :=
  match exn with
  | none =>
    (responses.map (fun r => map_response_to_sse r session_id user_id) ++
      [SSEFrame.completion session_id user_id], none)
  | some e =>
    (responses.map (fun r => map_response_to_sse r session_id user_id) ++
      [SSEFrame.completion session_id user_id], some e)

/-! ## Gmail after-tool callback (`GmailToolAfterCallback.__call__`)

The tool context's transient `state` maps keys to credential dicts or to
`None` (the before-callback stores literal `None` to clear an entry);
`state.get(k)` is `none` both for a missing key and a stored `None`. The
durable store (Redis) maps persistent keys to `json.dumps(credential)`; the
stored payload is modelled as the credential value itself. `Cred` is the
type of credential dicts and `Resp` the type of tool responses, both
opaque to this callback. An absent Redis client is `none`. -/

/-- `args.get("connector_input_payload", {}).get("Path parameters", {}).get("userId")`. -/
structure PathParams where
  userId : Option String := none
  deriving Repr, DecidableEq

/-- The `connector_input_payload` entry of the tool call args. -/
structure ConnectorPayload where
  path_parameters : Option PathParams := none
  deriving Repr, DecidableEq

/-- The tool call args, restricted to the path the callback reads. -/
structure ToolArgs where
  connector_input_payload : Option ConnectorPayload := none
  deriving Repr, DecidableEq

/-- The nested `userId` lookup (each `.get` defaults to `{}`). -/
def get_connector_input_user_id (args : ToolArgs) : Option String :=
  (args.connector_input_payload.bind (·.path_parameters)).bind (·.userId)

/-- `tool_context.state.get(k)` where stored values may be literal `None`. -/
def state_get {Cred : Type} (state : List (String × Option Cred)) (k : String) :
    Option Cred :=
  match dict_get state k with
  | some v => v
  | none => none

/-- `GmailToolAfterCallback.__call__`: returns
`(tool_response, args, state, redis)` after the call. The only effect is the
Redis write of the transient credential under the persistent key, performed
when a `userId` is present in the args, the transient credential exists, and
a Redis client is configured. -/
def gmail_after_callback {Cred Resp : Type}
    (pyHash : String → Fin (2 ^ 64))
    (auth_scheme : AuthSchemeObj) (auth_credential : AuthCredentialObj)
    (session : SessionRec) (args : ToolArgs)
    (state : List (String × Option Cred))
    (redis : Option (List (String × Cred))) (tool_response : Resp) :
    Resp × ToolArgs × List (String × Option Cred) × Option (List (String × Cred)) :=
  match get_connector_input_user_id args with
  | none => (tool_response, args, state, redis)
  | some connector_input_user_id =>
    let credential_key := get_credential_key_from_auth_scheme_and_credential
      pyHash auth_scheme auth_credential
    let credential_key_redis := get_persistent_credential_key
      credential_key session.id session.user_id connector_input_user_id
    match redis, state_get state credential_key with
    | some r, some credential =>
      (tool_response, args, state, some (dict_set r credential_key_redis credential))
    | _, _ => (tool_response, args, state, redis)

/-! ## Concrete sample objects used by the witness theorems -/

/-- A negotiation's OAuth2 sub-object with authorization URI and state set. -/
def sample_oauth2 : OAuth2Auth :=
  { auth_uri := some "https://auth.example/authorize?client_id=1",
    state := some "st", auth_response_uri := none, redirect_uri := none }

/-- A complete negotiation carrying `sample_oauth2`. -/
def sample_cfg : AuthConfig :=
  { exchanged_auth_credential := some { oauth2 := some sample_oauth2 } }

/-- A handler for `sample_cfg` with a 1-second poll interval. -/
def sample_handler : AuthConfigHandler :=
  { auth_config := sample_cfg, redirect_uri := "http://localhost:8001/callback",
    poll_interval := 1 }

/-- `sample_cfg` after the wait completes with code `c`. -/
def sample_updated : AuthConfig :=
  { exchanged_auth_credential := some
      { oauth2 := some
          { auth_uri := some "https://auth.example/authorize?client_id=1",
            state := some "st",
            auth_response_uri :=
              some "http://localhost:8001/callback?code=c&state=st",
            redirect_uri := some "http://localhost:8001/callback" } } }

/-- An `adk_request_credential` function call carrying `sample_cfg`. -/
def sample_function_call : FunctionCall :=
  { id := some "fid", name := some "adk_request_credential",
    args := some [("authConfig", ArgVal.configDict sample_cfg)] }

/-- An auth event containing `sample_function_call` as a long-running tool. -/
def sample_auth_event : Event :=
  { author := some "gmail_agent",
    content := some
      { role := some "model",
        parts := some [{ function_call := some sample_function_call }] },
    long_running_tool_ids := some ["fid"] }

/-- An interceptor whose handler starts with an empty negotiation. -/
def sample_interceptor : AuthInterceptor :=
  { auth_config_handler := { sample_handler with auth_config :=
      { exchanged_auth_credential := none } },
    agent_name := some "gmail_agent" }

/-- An event with two text parts and one text-less part. -/
def sample_text_event : Event :=
  { author := some "agent",
    content := some
      { role := some "model",
        parts := some [{ text := some "hi" }, { text := none },
          { text := some "there" }] } }

/-- A concrete canonical credential key (under the constant hash). -/
def sample_credential_key : String :=
  get_credential_key_from_auth_scheme_and_credential (fun _ => 0)
    ⟨"t", "s", 0⟩ ⟨"a", "x", 0⟩

/-! ## Helper lemmas -/

/-- Looking up a key in a dict from which it was just removed yields `none`. -/
lemma dict_get_filter_self {α : Type} (d : List (String × α)) (k : String) :
    dict_get (d.filter (fun kv => kv.1 != k)) k = none := by
  induction d with
  | nil => rfl
  | cons kv tl ih =>
    by_cases h : kv.1 = k
    · simpa [List.filter_cons, h] using ih
    · have hb : (kv.1 == k) = false := by simpa using h
      simpa only [List.filter_cons, bne, hb, Bool.not_false, if_pos, dict_get,
        List.find?_cons, cond_false] using ih

/-- Removing an absent key from a dict leaves it unchanged. -/
lemma filter_eq_self_of_get_none {α : Type} (d : List (String × α)) (k : String)
    (h : dict_get d k = none) : d.filter (fun kv => kv.1 != k) = d := by
  induction d with
  | nil => rfl
  | cons kv tl ih =>
    by_cases hb : kv.1 = k
    · exfalso
      have : dict_get (kv :: tl) k = some kv.2 := by
        simp [dict_get, List.find?_cons, hb]
      rw [h] at this
      exact Option.noConfusion this
    · have hbe : (kv.1 == k) = false := by simpa using hb
      have htl : dict_get tl k = none := by
        simpa [dict_get, List.find?_cons, hbe] using h
      have hp : (kv.1 != k) = true := by simp [bne, hbe]
      rw [List.filter_cons, if_pos hp, ih htl]

/-- The polling loop finds nothing when every allowed poll is falsy. -/
lemma wait_loop_eq_none (poll : ℕ → Option String) :
    ∀ (fuel s : ℕ), (∀ j, j < fuel → truthyCode (poll (s + j)) = none) →
    wait_loop poll s fuel = none := by
  intro fuel
  induction fuel with
  | zero => intro s _; rfl
  | succ n ih =>
    intro s h
    have h0 : truthyCode (poll s) = none := by simpa using h 0 (Nat.succ_pos n)
    have hrest : ∀ j, j < n → truthyCode (poll (s + 1 + j)) = none := by
      intro j hj
      have := h (j + 1) (by omega)
      simpa [Nat.add_assoc, Nat.add_comm 1 j] using this
    simp [wait_loop, h0, ih (s + 1) hrest]

/-- The polling loop returns the first truthy code when it lies within the
allowed polls. -/
lemma wait_loop_eq_some (poll : ℕ → Option String) :
    ∀ (fuel s k : ℕ) (c : String), k < fuel →
    truthyCode (poll (s + k)) = some c →
    (∀ j, j < k → truthyCode (poll (s + j)) = none) →
    wait_loop poll s fuel = some c := by
  intro fuel
  induction fuel with
  | zero => intro s k c hk; exact absurd hk (Nat.not_lt_zero k)
  | succ n ih =>
    intro s k c hk hc hprev
    cases k with
    | zero =>
      have : truthyCode (poll s) = some c := by simpa using hc
      simp [wait_loop, this]
    | succ k' =>
      have h0 : truthyCode (poll s) = none := by
        simpa using hprev 0 (Nat.succ_pos k')
      have hc' : truthyCode (poll (s + 1 + k')) = some c := by
        simpa [Nat.add_assoc, Nat.add_comm 1 k'] using hc
      have hprev' : ∀ j, j < k' → truthyCode (poll (s + 1 + j)) = none := by
        intro j hj
        have := hprev (j + 1) (by omega)
        simpa [Nat.add_assoc, Nat.add_comm 1 j] using this
      simp [wait_loop, h0, ih (s + 1) k' c (by omega) hc' hprev']

/-- Iteration `k` of the `while elapsed < timeout` loop runs iff
`k * poll_interval < timeout`. -/
lemma num_polls_iff (p t : ℚ) (hp : 0 < p) (k : ℕ) :
    k < num_polls p t ↔ (k : ℚ) * p < t := by
  unfold num_polls
  rw [Nat.lt_ceil, lt_div_iff₀ hp]

/-- The loop overshoots the timeout by less than one poll interval. -/
lemma num_polls_overshoot (p t : ℚ) (hp : 0 < p) (ht : 0 ≤ t) :
    (num_polls p t : ℚ) * p < t + p := by
  unfold num_polls
  have h1 : (⌈t / p⌉₊ : ℚ) < t / p + 1 :=
    Nat.ceil_lt_add_one (div_nonneg ht hp.le)
  calc (⌈t / p⌉₊ : ℚ) * p < (t / p + 1) * p := by
        exact mul_lt_mul_of_pos_right h1 hp
    _ = t + p := by field_simp

/-- Any 64-bit string hash has two distinct credential contents whose
canonical keys coincide (pigeonhole over the hash's finite range). -/
lemma canonical_key_hash_collision (pyHash : String → Fin (2 ^ 64)) :
    ∃ (s : AuthSchemeObj) (c₁ c₂ : AuthCredentialObj),
      c₁.dump_json ≠ c₂.dump_json ∧
      get_credential_key_from_auth_scheme_and_credential pyHash s c₁ =
        get_credential_key_from_auth_scheme_and_credential pyHash s c₂ := by
  obtain ⟨m, n, hmn, heq⟩ :=
    Finite.exists_ne_map_eq_of_infinite
      (fun n : ℕ => pyHash ⟨List.replicate n 'a'⟩)
  refine ⟨⟨"t", "s", 0⟩, ⟨"a", ⟨List.replicate m 'a'⟩, 0⟩,
    ⟨"a", ⟨List.replicate n 'a'⟩, 0⟩, ?_, ?_⟩
  · intro hc
    apply hmn
    have hdata := congrArg String.data hc
    have hrep : List.replicate m 'a' = List.replicate n 'a' := by simpa using hdata
    have hlen := congrArg List.length hrep
    simpa using hlen
  · simp [get_credential_key_from_auth_scheme_and_credential, heq]

/-! ## Claim theorems -/

/-- C1: the claimed persistent-key codec invariant fails on the code. At
`session_id = "s1"`, `user_id = "u1"`, `external_account_id = "g1"` (no
reserved separator characters), the produced key is `"s1:u1:g1"` — it does
not contain the canonical key at all (the argument is ignored) — and
decoding that key raises `ValueError` (three `":"`-separated fields reach a
two-variable unpack) instead of recovering `("s1", "u1")`. -/
theorem persistent_key_drops_canonical_and_decode_fails :
    get_persistent_credential_key "CANON" "s1" "u1" "g1" = "s1:u1:g1" ∧
    get_persistent_credential_key "OTHER" "s1" "u1" "g1" =
      get_persistent_credential_key "CANON" "s1" "u1" "g1" ∧
    get_session_user_from_persistent_credential_key
      (get_persistent_credential_key "CANON" "s1" "u1" "g1") = none :=
  ⟨by decide, by decide, by decide⟩

/-- C2: for an auth event whose function call has a non-empty id and a
mapping-valued `authConfig` carrying a non-empty authorization URI and
state, and whose blocking wait completes with the updated negotiation,
`intercept_auth_event` yields exactly two events in order and raises no
error: first the user-facing event whose only text is
`AUTH_REQUIRED: <authorization_uri>&redirect_uri=<redirect_uri>`, then the
resumption event whose function response has the reserved name, the
original call id, and the fully updated negotiation as payload. -/
theorem intercept_auth_event_request_then_resumption :
    ∀ (itc : AuthInterceptor) (poll : ℕ → Option String) (event : Event)
      (fc : FunctionCall) (fcid : String) (args : List (String × ArgVal))
      (cfg updated : AuthConfig) (ec : ExchangedAuthCredential) (o : OAuth2Auth)
      (uri st : String),
      get_auth_request_function_call event = some fc →
      fc.id = some fcid → fcid ≠ "" →
      fc.args = some args → args ≠ [] →
      dict_get args "authConfig" = some (ArgVal.configDict cfg) →
      cfg.exchanged_auth_credential = some ec → ec.oauth2 = some o →
      o.auth_uri = some uri → uri ≠ "" → o.state = some st → st ≠ "" →
      wait_for_user_authentication
        (set_auth_config itc.auth_config_handler cfg) poll 300 =
        Except.ok updated →
      (intercept_auth_event itc poll event).1 =
        ([{ author := itc.agent_name,
            content := some
              { role := some "model",
                parts := some
                  [{ text := some ("AUTH_REQUIRED: " ++ uri ++ "&redirect_uri=" ++
                       itc.auth_config_handler.redirect_uri) }] } },
          { author := itc.agent_name,
            content := some
              { role := some "user",
                parts := some
                  [{ function_response := some
                       { id := some fcid,
                         name := some "adk_request_credential",
                         response := some updated } }] } }],
         none) := by
  intro itc poll event fc fcid args cfg updated ec o uri st
  intro hfc hid hidne hargs hargsne hcfg hec ho huri hurine hst hstne hwait
  have hask : ask_user_for_authentication
      (set_auth_config itc.auth_config_handler cfg) itc.agent_name =
      Except.ok
        { author := itc.agent_name,
          content := some
            { role := some "model",
              parts := some
                [{ text := some ("AUTH_REQUIRED: " ++ uri ++ "&redirect_uri=" ++
                     itc.auth_config_handler.redirect_uri) }] } } := by
    simp [ask_user_for_authentication, set_auth_config, hec, ho, huri, hst,
      pyTruthy, hurine, hstne]
  simp [intercept_auth_event, hfc, hid, hidne, hargs, hargsne, hcfg, hask,
    hwait, create_event_with_code_credentials]

/-- Witness for C2: on `sample_auth_event` with a store that answers `"c"`
at the first poll, the interceptor yields exactly the request event and the
resumption event built from `sample_updated`. -/
theorem intercept_auth_event_request_then_resumption_witness :
    (intercept_auth_event sample_interceptor (fun _ => some "c")
      sample_auth_event).1 =
      ([{ author := some "gmail_agent",
          content := some
            { role := some "model",
              parts := some
                [{ text := some
                     ("AUTH_REQUIRED: https://auth.example/authorize?client_id=1" ++
                      "&redirect_uri=http://localhost:8001/callback") }] } },
        { author := some "gmail_agent",
          content := some
            { role := some "user",
              parts := some
                [{ function_response := some
                     { id := some "fid",
                       name := some "adk_request_credential",
                       response := some sample_updated } }] } }],
       none) := by
  have hwait : wait_for_user_authentication
      (set_auth_config sample_interceptor.auth_config_handler sample_cfg)
      (fun _ => some "c") 300 = Except.ok sample_updated := by
    have hk : 0 < num_polls 1 300 :=
      (num_polls_iff 1 300 (by norm_num) 0).2 (by norm_num)
    have hloop : wait_loop (fun _ => some "c") 0 (num_polls 1 300) = some "c" :=
      wait_loop_eq_some (fun _ => some "c") _ 0 0 "c" hk (by decide)
        (fun j hj => absurd hj (Nat.not_lt_zero j))
    simp only [wait_for_user_authentication, set_auth_config, sample_interceptor,
      sample_handler, sample_cfg, sample_oauth2]
    rw [hloop]
    rfl
  have h := intercept_auth_event_request_then_resumption sample_interceptor
    (fun _ => some "c") sample_auth_event sample_function_call "fid"
    [("authConfig", ArgVal.configDict sample_cfg)] sample_cfg sample_updated
    { oauth2 := some sample_oauth2 } sample_oauth2
    "https://auth.example/authorize?client_id=1" "st"
    (by decide) rfl (by decide) rfl (by decide) (by decide) rfl rfl rfl
    (by decide) rfl (by decide) hwait
  exact h.trans (by rfl)

/-- C3: `wait_for_user_authentication` on a negotiation whose OAuth2
sub-object is present: (a) an absent (or empty) state raises the
invalid-state `ValueError`; (b) if the first truthy `consume_code` answer
arrives at poll `k` within the budget, the call returns the negotiation
with `auth_response_uri = redirect_uri?code=<code>&state=<state>` and
`redirect_uri` set; (c) if every poll within the budget is falsy, it raises
a `TimeoutError` naming the state; (d) the budget is exactly
`⌈timeout / poll_interval⌉` polls, overshooting the timeout by less than
one poll interval. -/
theorem wait_for_user_authentication_spec :
    ∀ (h : AuthConfigHandler) (ec : ExchangedAuthCredential) (o : OAuth2Auth)
      (poll : ℕ → Option String) (t : ℚ),
      h.auth_config.exchanged_auth_credential = some ec → ec.oauth2 = some o →
      (((o.state = none ∨ o.state = some "") →
          wait_for_user_authentication h poll t =
            Except.error (PyError.valueError "State not found in auth_config")) ∧
        (∀ st c k, o.state = some st → st ≠ "" → 0 < h.poll_interval →
          truthyCode (poll k) = some c →
          (∀ j, j < k → truthyCode (poll j) = none) →
          (k : ℚ) * h.poll_interval < t →
          wait_for_user_authentication h poll t = Except.ok
            { exchanged_auth_credential := some
                { oauth2 := some { o with
                    auth_response_uri := some
                      (h.redirect_uri ++ "?code=" ++ c ++ "&state=" ++ st),
                    redirect_uri := some h.redirect_uri } } }) ∧
        (∀ st, o.state = some st → st ≠ "" → 0 < h.poll_interval →
          (∀ j : ℕ, (j : ℚ) * h.poll_interval < t → truthyCode (poll j) = none) →
          wait_for_user_authentication h poll t =
            Except.error (PyError.timeoutError st)) ∧
        (0 < h.poll_interval →
          (∀ k, k < num_polls h.poll_interval t ↔ (k : ℚ) * h.poll_interval < t) ∧
          (0 ≤ t →
            (num_polls h.poll_interval t : ℚ) * h.poll_interval <
              t + h.poll_interval))) := by
  intro h ec o poll t hec ho
  refine ⟨?_, ?_, ?_, ?_⟩
  · rintro (hst | hst) <;> simp [wait_for_user_authentication, hec, ho, hst]
  · intro st c k hst hstne hp hc hprev hkt
    have hk : k < num_polls h.poll_interval t := (num_polls_iff _ _ hp k).2 hkt
    have hloop : wait_loop poll 0 (num_polls h.poll_interval t) = some c :=
      wait_loop_eq_some poll _ 0 k c hk (by simpa using hc) (by simpa using hprev)
    simp [wait_for_user_authentication, hec, ho, hst, hstne, hloop]
  · intro st hst hstne hp hnone
    have hloop : wait_loop poll 0 (num_polls h.poll_interval t) = none := by
      refine wait_loop_eq_none poll _ 0 ?_
      intro j hj
      simpa using hnone j ((num_polls_iff _ _ hp j).1 hj)
    simp [wait_for_user_authentication, hec, ho, hst, hstne, hloop]
  · intro hp
    exact ⟨num_polls_iff _ _ hp, num_polls_overshoot _ _ hp⟩

/-- Witness for C3: with a 1-second poll interval, a 2-second timeout and a
store answering `"c"` at the first poll, the wait returns `sample_updated`. -/
theorem wait_for_user_authentication_spec_witness :
    wait_for_user_authentication sample_handler (fun _ => some "c") 2 =
      Except.ok sample_updated := by
  have h := (wait_for_user_authentication_spec sample_handler
      { oauth2 := some sample_oauth2 } sample_oauth2
      (fun _ => some "c") 2 rfl rfl).2.1
      "st" "c" 0 rfl (by decide) (by norm_num [sample_handler])
      (by decide) (fun j hj => absurd hj (Nat.not_lt_zero j))
      (by norm_num [sample_handler])
  exact h.trans (by rfl)

/-- C4: the frame sequence of `generate_stream`. A successful 3-response
run emits exactly three `agent_response` frames, in order, then exactly one
`completion` frame. A run whose underlying stream raises emits the
`completion` frame and re-raises the exception, but — because the `except`
block starts with `raise e` — never emits an error frame: the error-frame
yield in the source is unreachable. -/
theorem generate_stream_success_and_error_frames :
    generate_stream ["r1", "r2", "r3"] none "s" "u" =
      ([SSEFrame.agentResponse "r1" "s" "u", SSEFrame.agentResponse "r2" "s" "u",
        SSEFrame.agentResponse "r3" "s" "u", SSEFrame.completion "s" "u"], none) ∧
    generate_stream [] (some "boom") "s" "u" =
      ([SSEFrame.completion "s" "u"], some "boom") :=
  ⟨by decide, by decide⟩

/-- C5: `consume_code` is a destructive single-use read for both variants:
a stored code is returned by the first call and its entry removed; a second
call (no intervening store) returns absent; an unknown state returns absent
and leaves the store unchanged. For the Redis variant the stored code is
assumed non-empty (Python's `if code:` would skip an empty payload), which
`handle_callback` — the only write path — guarantees. -/
theorem consume_code_single_use :
    ∀ (d : List (String × String)) (state code : String),
      (dict_get d state = some code →
        consume_code d state = (some code, d.filter (fun kv => kv.1 != state)) ∧
        (consume_code (consume_code d state).2 state).1 = none) ∧
      (dict_get d state = none → consume_code d state = (none, d)) ∧
      (dict_get d state = some code → code ≠ "" →
        consume_code_redis d state =
          (some code, d.filter (fun kv => kv.1 != state)) ∧
        (consume_code_redis (consume_code_redis d state).2 state).1 = none) ∧
      (dict_get d state = none → consume_code_redis d state = (none, d)) := by
  intro d state code
  refine ⟨fun h => ⟨?_, ?_⟩, fun h => ?_, fun h hne => ⟨?_, ?_⟩, fun h => ?_⟩
  · simp [consume_code, dict_pop, h]
  · simp [consume_code, dict_pop, dict_get_filter_self]
  · simp [consume_code, dict_pop, h, filter_eq_self_of_get_none d state h]
  · have hbe : (code == "") = false := by simpa using hne
    simp [consume_code_redis, h, hbe, dict_pop]
  · have hbe : (code == "") = false := by simpa using hne
    simp [consume_code_redis, h, hbe, dict_pop, dict_get_filter_self]
  · simp [consume_code_redis, h]

/-- Witness for C5: consuming `"s"` from the one-entry store `[("s", "c")]`
returns `"c"` and empties the store; a second consumption, and consumption
from an empty store, return absent — for both variants. -/
theorem consume_code_single_use_witness :
    consume_code [("s", "c")] "s" = (some "c", []) ∧
    (consume_code (consume_code [("s", "c")] "s").2 "s").1 = none ∧
    consume_code_redis [("s", "c")] "s" = (some "c", []) ∧
    (consume_code_redis (consume_code_redis [("s", "c")] "s").2 "s").1 = none ∧
    (consume_code [] "s").1 = none := by
  have h := consume_code_single_use [("s", "c")] "s" "c"
  have h1 := h.1 (by decide)
  have h3 := h.2.2.1 (by decide) (by decide)
  have h0 := (consume_code_single_use [] "s" "c").2.1 (by decide)
  exact ⟨h1.1.trans (by decide), h1.2, h3.1.trans (by decide), h3.2,
    by rw [h0]⟩

/-- C6: when no session is registered for `(session_id, user_id)` under the
caller's app name, `call_agent_async` fails with `SessionNotFoundError`
carrying that session id, yields no output, and does so for every engine
(`runner` is universally quantified, so no engine event is ever consumed);
the session store is only read, never written. -/
theorem call_agent_async_session_not_found :
    ∀ (store : List SessionRec) (app_name : String)
      (runner : ℕ → Option Content → List Event) (poll : ℕ → Option String)
      (filt : Event → Except PyError Bool)
      (pars : Event → Except PyError String) (itc : AuthInterceptor)
      (message session_id user_id : String) (fuel : ℕ),
      get_session store app_name session_id user_id = none →
      call_agent_async store app_name runner poll filt pars itc
        message session_id user_id fuel =
        ([], some (CallerErr.sessionNotFound session_id)) := by
  intro store app_name runner poll filt pars itc message sid uid fuel h
  simp [call_agent_async, check_session_exists, h]

/-- Witness for C6: with an empty session store, the call fails with
`SessionNotFoundError "s1"` and yields nothing. -/
theorem call_agent_async_session_not_found_witness :
    call_agent_async [] "app" (fun _ _ => []) (fun _ => none)
      default_event_filter (default_event_parse (fun _ => ""))
      sample_interceptor "hello" "s1" "u1" 1 =
      ([], some (CallerErr.sessionNotFound "s1")) :=
  call_agent_async_session_not_found [] "app" (fun _ _ => []) (fun _ => none)
    default_event_filter (default_event_parse (fun _ => "")) sample_interceptor
    "hello" "s1" "u1" 1 rfl

/-- C7 counterexample: with `error = ""` present among the query parameters
(and valid `code` and `state`), `handle_callback` responds success and
mutates the store — the claim predicted a failure response with the store
unchanged. The code tests Python truthiness, not presence. -/
theorem handle_callback_empty_error_param_stores :
    (handle_callback [] (some "c") (some "s") (some "")).1 =
      CallbackResponse.success ∧
    (handle_callback [] (some "c") (some "s") (some "")).2 = [("s", "c")] :=
  ⟨by decide, by decide⟩

/-- C7 as amended: with presence replaced by truthiness — a truthy `error`
responds failure with the store unchanged; a falsy `code` or `state`
responds invalid-request with the store unchanged; otherwise the code is
stored under the state (overwriting) with a success response; and every
non-success response leaves the store unchanged (the success branch is the
only write path). -/
theorem handle_callback_truthiness_spec :
    ∀ (d : List (String × String)) (code state error : Option String),
      (pyTruthy error = true →
        handle_callback d code state error = (CallbackResponse.authFailed, d)) ∧
      (pyTruthy error = false →
        (pyTruthy code = false ∨ pyTruthy state = false) →
        handle_callback d code state error = (CallbackResponse.invalidRequest, d)) ∧
      (∀ c s, code = some c → c ≠ "" → state = some s → s ≠ "" →
        pyTruthy error = false →
        handle_callback d code state error =
          (CallbackResponse.success, dict_set d s c)) ∧
      ((handle_callback d code state error).1 ≠ CallbackResponse.success →
        (handle_callback d code state error).2 = d) := by
  intro d code state error
  refine ⟨fun he => ?_, fun he hcs => ?_, fun c s hc hcne hs hsne he => ?_,
    fun hne => ?_⟩
  · simp [handle_callback, he]
  · rcases hcs with h | h <;> simp [handle_callback, he, h]
  · simp only [pyTruthy] at he
    simp [handle_callback, hc, hs, pyTruthy, hcne, hsne, he]
  · by_cases he : pyTruthy error
    · simp [handle_callback, he]
    · by_cases hc : pyTruthy code
      · by_cases hs : pyTruthy state
        · exfalso; exact hne (by simp [handle_callback, he, hc, hs])
        · simp [handle_callback, he, hc, hs]
      · simp [handle_callback, he, hc]

/-- Witness for C7: a callback with code `"c"` and state `"s"` and no error
parameter stores the code under the state and responds success. -/
theorem handle_callback_truthiness_spec_witness :
    handle_callback [] (some "c") (some "s") none =
      (CallbackResponse.success, [("s", "c")]) := by
  have h := (handle_callback_truthiness_spec [] (some "c") (some "s")
    none).2.2.1 "c" "s" rfl (by decide) rfl (by decide) rfl
  exact h.trans (by decide)

/-- C8 counterexample: unconditional collision resistance fails — it is not
the case that every hash function into the 64-bit `Py_hash_t` range
separates all pairs of distinct credential contents (exhibited at the
constant hash, and `canonical_key_hash_collision` shows the failure for
every such hash). -/
theorem canonical_key_not_collision_resistant :
    ¬ ∀ (pyHash : String → Fin (2 ^ 64)) (s : AuthSchemeObj)
        (c₁ c₂ : AuthCredentialObj),
        c₁.dump_json ≠ c₂.dump_json →
        get_credential_key_from_auth_scheme_and_credential pyHash s c₁ ≠
          get_credential_key_from_auth_scheme_and_credential pyHash s c₂ := by
  intro hall
  obtain ⟨s, c₁, c₂, hne, heq⟩ := canonical_key_hash_collision (fun _ => 0)
  exact hall (fun _ => 0) s c₁ c₂ hne heq

/-- C8 as amended: the canonical key is deterministic, purely content-based
and identity-independent — equal serialized contents give equal keys
whatever the object identities — but distinct contents are separated only
up to hash collisions: for every 64-bit string hash there exist two
credentials with different serialized content and the same canonical key. -/
theorem canonical_key_content_based :
    (∀ (pyHash : String → Fin (2 ^ 64)) (s₁ s₂ : AuthSchemeObj)
        (c₁ c₂ : AuthCredentialObj),
        s₁.type_name = s₂.type_name → s₁.dump_json = s₂.dump_json →
        c₁.auth_type_value = c₂.auth_type_value → c₁.dump_json = c₂.dump_json →
        get_credential_key_from_auth_scheme_and_credential pyHash s₁ c₁ =
          get_credential_key_from_auth_scheme_and_credential pyHash s₂ c₂) ∧
    (∀ pyHash : String → Fin (2 ^ 64), ∃ (s : AuthSchemeObj)
        (c₁ c₂ : AuthCredentialObj),
        c₁.dump_json ≠ c₂.dump_json ∧
        get_credential_key_from_auth_scheme_and_credential pyHash s c₁ =
          get_credential_key_from_auth_scheme_and_credential pyHash s c₂) := by
  constructor
  · intro pyHash s₁ s₂ c₁ c₂ h1 h2 h3 h4
    simp [get_credential_key_from_auth_scheme_and_credential, h1, h2, h3, h4]
  · exact canonical_key_hash_collision

/-- Witness for C8: two scheme/credential pairs with equal content but
different object identities produce the same canonical key. -/
theorem canonical_key_content_based_witness :
    get_credential_key_from_auth_scheme_and_credential (fun _ => 0)
      ⟨"t", "s", 3⟩ ⟨"a", "x", 5⟩ =
    get_credential_key_from_auth_scheme_and_credential (fun _ => 0)
      ⟨"t", "s", 7⟩ ⟨"a", "x", 9⟩ :=
  canonical_key_content_based.1 (fun _ => 0) ⟨"t", "s", 3⟩ ⟨"t", "s", 7⟩
    ⟨"a", "x", 5⟩ ⟨"a", "x", 9⟩ rfl rfl rfl rfl

/-- C9 counterexample: an event whose content is present but whose `parts`
field is `None` has no content part with non-absent text, so the claim says
the filter returns true (suppress); the code instead raises `TypeError`
(iterating over `None`). -/
theorem default_event_filter_parts_none_raises :
    default_event_filter { content := some { role := none, parts := none } } =
      Except.error PyError.typeError ∧
    (Except.error PyError.typeError : Except PyError Bool) ≠ Except.ok true :=
  ⟨rfl, fun h => Except.noConfusion h⟩

/-- C9 as amended: for events with no content, or with a `parts` list, the
default filter returns true (suppress) exactly when no part has non-absent
text — when content is present without a parts list it raises `TypeError`
instead; the default parser on an event with a parts list returns the
parts' non-absent texts joined by single spaces; and the run loop, on a
non-auth event, drops the event when the filter returns true and yields the
parsed text when it returns false. -/
theorem default_filter_parser_loop_spec :
    (∀ e : Event, e.content = none → default_event_filter e = Except.ok true) ∧
    (∀ (e : Event) (c : Content) (ps : List ContentPart),
      e.content = some c → c.parts = some ps →
      default_event_filter e = Except.ok (ps.all (fun p => p.text.isNone))) ∧
    (∀ (e : Event) (c : Content), e.content = some c → c.parts = none →
      default_event_filter e = Except.error PyError.typeError) ∧
    (∀ (strEvent : Event → String) (e : Event) (c : Content)
        (ps : List ContentPart), e.content = some c → c.parts = some ps →
      default_event_parse strEvent e =
        Except.ok (String.intercalate " " (ps.filterMap (·.text)))) ∧
    (∀ (itc : AuthInterceptor) (poll : ℕ → Option String)
        (pars : Event → Except PyError String) (ev : Event)
        (rest : List Event) (msg : Option Content),
      is_auth_event ev = false → default_event_filter ev = Except.ok true →
      process_events itc poll default_event_filter pars (ev :: rest) msg =
        process_events itc poll default_event_filter pars rest msg) ∧
    (∀ (itc : AuthInterceptor) (poll : ℕ → Option String)
        (pars : Event → Except PyError String) (ev : Event)
        (rest : List Event) (msg : Option Content) (s : String),
      is_auth_event ev = false → default_event_filter ev = Except.ok false →
      pars ev = Except.ok s →
      process_events itc poll default_event_filter pars (ev :: rest) msg =
        (s :: (process_events itc poll default_event_filter pars rest msg).1,
         (process_events itc poll default_event_filter pars rest msg).2)) := by
  refine ⟨?_, ?_, ?_, ?_, ?_, ?_⟩
  · intro e h; simp [default_event_filter, h]
  · intro e c ps h hp; simp [default_event_filter, h, hp]
  · intro e c h hp; simp [default_event_filter, h, hp]
  · intro strEvent e c ps h hp; simp [default_event_parse, h, hp]
  · intro itc poll pars ev rest msg hauth hfilt
    simp [process_events, hauth, hfilt]
  · intro itc poll pars ev rest msg s hauth hfilt hpars
    simp [process_events, hauth, hfilt, hpars]

/-- Witness for C9: `sample_text_event` (texts `"hi"`, absent, `"there"`)
passes the filter and parses to `"hi there"`; an event without content is
suppressed. -/
theorem default_filter_parser_loop_spec_witness :
    default_event_filter sample_text_event = Except.ok false ∧
    default_event_parse (fun _ => "") sample_text_event =
      Except.ok "hi there" ∧
    default_event_filter { content := none } = Except.ok true := by
  refine ⟨?_, ?_, ?_⟩
  · exact (default_filter_parser_loop_spec.2.1 sample_text_event _ _
      rfl rfl).trans (by rfl)
  · exact (default_filter_parser_loop_spec.2.2.2.1 (fun _ => "")
      sample_text_event _ _ rfl rfl).trans (by rfl)
  · exact default_filter_parser_loop_spec.1 { content := none } rfl

/-- C10: the after-tool callback always returns the given `tool_response`
unchanged and never mutates the call args or the transient state; the
durable store changes only when a `userId` is present in the call args and
a credential exists in transient state under the canonical key, in which
case the credential is written under the persistent key. -/
theorem gmail_after_callback_frame :
    ∀ {Cred Resp : Type} (pyHash : String → Fin (2 ^ 64))
      (scheme : AuthSchemeObj) (cred : AuthCredentialObj) (session : SessionRec)
      (args : ToolArgs) (state : List (String × Option Cred))
      (redis : Option (List (String × Cred))) (tool_response : Resp),
      (gmail_after_callback pyHash scheme cred session args state redis
        tool_response).1 = tool_response ∧
      (gmail_after_callback pyHash scheme cred session args state redis
        tool_response).2.1 = args ∧
      (gmail_after_callback pyHash scheme cred session args state redis
        tool_response).2.2.1 = state ∧
      ((gmail_after_callback pyHash scheme cred session args state redis
        tool_response).2.2.2 ≠ redis →
        (∃ uid, get_connector_input_user_id args = some uid) ∧
        state_get state (get_credential_key_from_auth_scheme_and_credential
          pyHash scheme cred) ≠ none) ∧
      (∀ uid credv r, get_connector_input_user_id args = some uid →
        state_get state (get_credential_key_from_auth_scheme_and_credential
          pyHash scheme cred) = some credv →
        redis = some r →
        (gmail_after_callback pyHash scheme cred session args state redis
          tool_response).2.2.2 = some (dict_set r
            (get_persistent_credential_key
              (get_credential_key_from_auth_scheme_and_credential
                pyHash scheme cred)
              session.id session.user_id uid)
            credv)) := by
  intro Cred Resp pyHash scheme cred session args state redis tool_response
  unfold gmail_after_callback
  cases huid : get_connector_input_user_id args with
  | none => simp
  | some uid =>
    cases redis with
    | none => simp
    | some r =>
      cases hsg : state_get state
          (get_credential_key_from_auth_scheme_and_credential
            pyHash scheme cred) with
      | none => simp [hsg]
      | some credv => simp [hsg]

/-- Witness for C10: with a `userId` in the args and a transient credential
under the canonical key, the callback returns the response unchanged,
leaves args and state untouched, and writes the credential to the empty
durable store under `"s1:u1:g1"`. -/
theorem gmail_after_callback_frame_witness :
    (@gmail_after_callback String String (fun _ => 0)
      ⟨"t", "s", 0⟩ ⟨"a", "x", 0⟩ ⟨"s1", "app", "u1"⟩
      { connector_input_payload := some
          { path_parameters := some { userId := some "g1" } } }
      [(sample_credential_key, some "tok")] (some []) "resp").1 = "resp" ∧
    (@gmail_after_callback String String (fun _ => 0)
      ⟨"t", "s", 0⟩ ⟨"a", "x", 0⟩ ⟨"s1", "app", "u1"⟩
      { connector_input_payload := some
          { path_parameters := some { userId := some "g1" } } }
      [(sample_credential_key, some "tok")] (some []) "resp").2.2.1 =
      [(sample_credential_key, some "tok")] ∧
    (@gmail_after_callback String String (fun _ => 0)
      ⟨"t", "s", 0⟩ ⟨"a", "x", 0⟩ ⟨"s1", "app", "u1"⟩
      { connector_input_payload := some
          { path_parameters := some { userId := some "g1" } } }
      [(sample_credential_key, some "tok")] (some []) "resp").2.2.2 =
      some [("s1:u1:g1", "tok")] := by
  have h := @gmail_after_callback_frame String String
    (fun _ => 0) ⟨"t", "s", 0⟩ ⟨"a", "x", 0⟩ ⟨"s1", "app", "u1"⟩
    { connector_input_payload := some
        { path_parameters := some { userId := some "g1" } } }
    [(sample_credential_key, some "tok")] (some []) "resp"
  refine ⟨h.1, h.2.2.1, ?_⟩
  have h5 := h.2.2.2.2 "g1" "tok" [] rfl (by decide) rfl
  exact h5.trans (by decide)
